import Mathlib

/-!
# Desired-state synthesis of the Valkey cluster deployment

A shallow embedding of `createClusterDeployment`
(`internal/controller/deployment.go`) together with the fragment of the
Kubernetes API object model that the function populates.

Conventions of the embedding:

* a Go struct is a Lean structure whose fields keep the Go names; a field
  that the Go composite literal leaves out takes the Go zero value, which is
  the default value of the Lean field;
* a Go pointer field is an `Option` (`nil` is `none`);
* a Go `map[string]string` is an association list, `nil` slices are `[]`;
* `int32` / `int` fields are `Int` (no arithmetic is performed on them);
* an embedded Go struct (`metav1.ObjectMeta`) is a parent structure, so the
  promoted field `cluster.Name` is written the same way here.

The package-level constants `DefaultImage`, `DefaultExporterImage`,
`DefaultPort`, `DefaultClusterBusPort`, `DefaultExporterPort` and the helper
`labels` are declared in other files of the package; they are taken as the
parameter `Env`, so every theorem holds for all of their values.
-/

set_option linter.dupNamespace false

namespace ValkeyOperator

/-! ## Kubernetes object model (the fields the synthesizer touches) -/

/-- Go `map[string]string`, as used for object labels and selectors. -/
abbrev LabelMap := List (String × String)

/-- Go `corev1.ResourceList`: resource name to quantity (textual form);
`none` is the nil map. -/
abbrev ResourceList := Option (List (String × String))

/-- Go `corev1.ResourceRequirements`. -/
structure ResourceRequirements where
  Limits : ResourceList := none
  Requests : ResourceList := none
  Claims : List String := []
deriving DecidableEq, Repr

/-- Go `corev1.Protocol` is a string type. -/
abbrev Protocol := String

/-- Go `corev1.ProtocolTCP`. -/
def ProtocolTCP : Protocol := "TCP"

/-- Go `corev1.ContainerPort`. -/
structure ContainerPort where
  Name : String := ""
  HostPort : Int := 0
  ContainerPort : Int := 0
  Protocol : Protocol := ""
  HostIP : String := ""
deriving DecidableEq, Repr

/-- Go `corev1.ExecAction`. -/
structure ExecAction where
  Command : List String := []
deriving DecidableEq, Repr

/-- Go `intstr.IntOrString`: either an integer or a named port. -/
inductive IntOrString where
  | int (v : Int)
  | str (v : String)
deriving DecidableEq, Repr

/-- Go `intstr.FromInt`. -/
def IntOrString.FromInt (v : Int) : IntOrString := IntOrString.int v

/-- Go `corev1.HTTPGetAction`. -/
structure HTTPGetAction where
  Path : String := ""
  Port : IntOrString := IntOrString.int 0
  Host : String := ""
  Scheme : String := ""
deriving DecidableEq, Repr

/-- Go `corev1.ProbeHandler`. -/
structure ProbeHandler where
  Exec : Option ExecAction := none
  HTTPGet : Option HTTPGetAction := none
deriving DecidableEq, Repr

/-- Go `corev1.Probe`. -/
structure Probe where
  ProbeHandler : ProbeHandler := {}
  InitialDelaySeconds : Int := 0
  TimeoutSeconds : Int := 0
  PeriodSeconds : Int := 0
  SuccessThreshold : Int := 0
  FailureThreshold : Int := 0
deriving DecidableEq, Repr

/-- Go `corev1.VolumeMount`. -/
structure VolumeMount where
  Name : String := ""
  ReadOnly : Bool := false
  MountPath : String := ""
  SubPath : String := ""
deriving DecidableEq, Repr

/-- Go `corev1.Container`. -/
structure Container where
  Name : String := ""
  Image : String := ""
  Command : List String := []
  Args : List String := []
  Ports : List ContainerPort := []
  Resources : ResourceRequirements := {}
  VolumeMounts : List VolumeMount := []
  LivenessProbe : Option Probe := none
  ReadinessProbe : Option Probe := none
deriving DecidableEq, Repr

/-- Go `corev1.LocalObjectReference`. -/
structure LocalObjectReference where
  Name : String := ""
deriving DecidableEq, Repr

/-- Go `corev1.ConfigMapVolumeSource`. -/
structure ConfigMapVolumeSource where
  LocalObjectReference : LocalObjectReference := {}
  DefaultMode : Option Int := none
deriving DecidableEq, Repr

/-- Go `corev1.VolumeSource`, restricted to the configuration-map member and
one representative of the other members (all of which stay nil here). -/
structure VolumeSource where
  ConfigMap : Option ConfigMapVolumeSource := none
  Secret : Option LocalObjectReference := none
deriving DecidableEq, Repr

/-- Go `corev1.Volume`. -/
structure Volume where
  Name : String := ""
  VolumeSource : VolumeSource := {}
deriving DecidableEq, Repr

/-- Go `metav1.ObjectMeta`. -/
structure ObjectMeta where
  Name : String := ""
  GenerateName : String := ""
  Namespace : String := ""
  Labels : LabelMap := []
deriving DecidableEq, Repr

/-- Go `metav1.LabelSelector`. -/
structure LabelSelector where
  MatchLabels : LabelMap := []
deriving DecidableEq, Repr

/-- Go `corev1.PodSpec`. -/
structure PodSpec where
  Volumes : List Volume := []
  Containers : List Container := []
deriving DecidableEq, Repr

/-- Go `corev1.PodTemplateSpec`. -/
structure PodTemplateSpec where
  ObjectMeta : ObjectMeta := {}
  Spec : PodSpec := {}
deriving DecidableEq, Repr

/-- Go `appsv1.DeploymentSpec`. -/
structure DeploymentSpec where
  Replicas : Option Int := none
  Selector : Option LabelSelector := none
  Template : PodTemplateSpec := {}
deriving DecidableEq, Repr

/-- Go `appsv1.Deployment`; `metav1.ObjectMeta` is embedded. -/
structure Deployment extends ObjectMeta where
  Spec : DeploymentSpec := {}
deriving DecidableEq, Repr

/-! ## The custom resource -/

/-- Go `valkeyiov1alpha1.ExporterSpec`. -/
structure ExporterSpec where
  Enabled : Bool := false
  Image : String := ""
  Resources : ResourceRequirements := {}
deriving DecidableEq, Repr

/-- Go `valkeyiov1alpha1.ValkeyClusterSpec` (the fields read by the
synthesizer). -/
structure ValkeyClusterSpec where
  Image : String := ""
  Exporter : ExporterSpec := {}
deriving DecidableEq, Repr

/-- Go `valkeyiov1alpha1.ValkeyCluster`; `metav1.ObjectMeta` is embedded. -/
structure ValkeyCluster extends ObjectMeta where
  Spec : ValkeyClusterSpec := {}
deriving DecidableEq, Repr

/-- The package-level constants and the `labels` helper used by
`createClusterDeployment`; they are declared elsewhere in the package. -/
structure Env where
  DefaultImage : String
  DefaultExporterImage : String
  DefaultPort : Int
  DefaultClusterBusPort : Int
  DefaultExporterPort : Int
  labels : ValkeyCluster → LabelMap

/-! ## The synthesizer -/

/-- Lines 30-33: the image of the primary container. -/
def primaryImage (env : Env) (cluster : ValkeyCluster) : String :=
  if cluster.Spec.Image ≠ "" then cluster.Spec.Image else env.DefaultImage

/-- Lines 36-96: the primary container literal. -/
def primaryContainer (env : Env) (cluster : ValkeyCluster) : Container :=
  { Name := "valkey-server"
    Image := primaryImage env cluster
    Command := ["valkey-server", "/config/valkey.conf"]
    Ports :=
      [ { Name := "client", ContainerPort := env.DefaultPort },
        { Name := "cluster-bus", ContainerPort := env.DefaultClusterBusPort } ]
    LivenessProbe := some
      { InitialDelaySeconds := 5
        PeriodSeconds := 5
        FailureThreshold := 5
        TimeoutSeconds := 5
        SuccessThreshold := 1
        ProbeHandler :=
          { Exec := some { Command := ["/bin/bash", "-c", "/scripts/liveness-check.sh"] } } }
    ReadinessProbe := some
      { InitialDelaySeconds := 5
        PeriodSeconds := 5
        FailureThreshold := 5
        TimeoutSeconds := 2
        SuccessThreshold := 1
        ProbeHandler :=
          { Exec := some { Command := ["/bin/bash", "-c", "/scripts/readiness-check.sh"] } } }
    VolumeMounts :=
      [ { Name := "scripts", MountPath := "/scripts" },
        { Name := "valkey-conf", MountPath := "/config", ReadOnly := true } ] }

/-- Lines 99-102: the image of the exporter container. -/
def exporterImage (env : Env) (cluster : ValkeyCluster) : String :=
  if cluster.Spec.Exporter.Image ≠ "" then cluster.Spec.Exporter.Image
  else env.DefaultExporterImage

/-- Lines 104-140: the exporter container literal.
`fmt.Sprintf` with `%d` renders the integer in decimal. -/
def exporterContainer (env : Env) (cluster : ValkeyCluster) : Container :=
  { Name := "metrics-exporter"
    Image := exporterImage env cluster
    Args := ["--redis.addr=localhost:" ++ toString env.DefaultPort]
    Ports :=
      [ { Name := "metrics"
          ContainerPort := env.DefaultExporterPort
          Protocol := ProtocolTCP } ]
    LivenessProbe := some
      { InitialDelaySeconds := 10
        PeriodSeconds := 10
        TimeoutSeconds := 3
        ProbeHandler :=
          { HTTPGet := some
              { Path := "/health"
                Port := IntOrString.FromInt env.DefaultExporterPort } } }
    ReadinessProbe := some
      { InitialDelaySeconds := 5
        PeriodSeconds := 10
        TimeoutSeconds := 3
        ProbeHandler :=
          { HTTPGet := some
              { Path := "/ready"
                Port := IntOrString.FromInt env.DefaultExporterPort } } }
    Resources := cluster.Spec.Exporter.Resources }

/-- Lines 35-144: the container list, with the exporter appended when it is
enabled. -/
def containers (env : Env) (cluster : ValkeyCluster) : List Container :=
  let containers := [primaryContainer env cluster]
  if cluster.Spec.Exporter.Enabled then
    containers ++ [exporterContainer env cluster]
  else
    containers

/-- Lines 162-184: the two configuration-map volumes. Go's literal `0755` is
octal, i.e. 493. -/
def volumes (cluster : ValkeyCluster) : List Volume :=
  [ { Name := "scripts"
      VolumeSource :=
        { ConfigMap := some
            { LocalObjectReference := { Name := cluster.Name }
              DefaultMode := some 0o755 } } },
    { Name := "valkey-conf"
      VolumeSource :=
        { ConfigMap := some
            { LocalObjectReference := { Name := cluster.Name } } } } ]

/-- The function `createClusterDeployment` (lines 29-190). -/
def createClusterDeployment (env : Env) (cluster : ValkeyCluster) : Deployment :=
  { toObjectMeta :=
      { GenerateName := cluster.Name ++ "-"
        Namespace := cluster.Namespace
        Labels := env.labels cluster }
    Spec :=
      { Replicas := some 1
        Selector := some { MatchLabels := env.labels cluster }
        Template :=
          { ObjectMeta := { Labels := env.labels cluster }
            Spec :=
              { Containers := containers env cluster
                Volumes := volumes cluster } } } }

/-! ## Accessors used to state the properties -/

/-- The probes attached to a container (liveness, then readiness). -/
def Container.probes (c : Container) : List Probe :=
  c.LivenessProbe.toList ++ c.ReadinessProbe.toList

/-- The containers of the deployment's pod template. -/
def Deployment.containers (d : Deployment) : List Container :=
  d.Spec.Template.Spec.Containers

/-- The volumes of the deployment's pod template. -/
def Deployment.volumes (d : Deployment) : List Volume :=
  d.Spec.Template.Spec.Volumes

/-- The first container of the pod template carrying the given name. -/
def Deployment.containerNamed (d : Deployment) (name : String) : Option Container :=
  d.containers.find? (fun c => c.Name == name)

/-! ## Concrete inputs for evaluation -/

/-- A concrete choice of the package constants, with a label helper that
derives the labels from the cluster name. -/
def sampleEnv : Env :=
  { DefaultImage := "valkey/valkey:9.0.0"
    DefaultExporterImage := "oliver006/redis_exporter:v1.80.0"
    DefaultPort := 6379
    DefaultClusterBusPort := 16379
    DefaultExporterPort := 9121
    labels := fun c => [("app.kubernetes.io/name", "valkey"), ("app.kubernetes.io/instance", c.Name)] }

/-- A sample resource requirement. -/
def sampleResources : ResourceRequirements :=
  { Limits := some [("memory", "128Mi")], Requests := some [("cpu", "100m")] }

/-- Scenario of the specification: exporter disabled, no image override. -/
def clusterPlain : ValkeyCluster :=
  { Name := "cache1", Namespace := "default" }

/-- Scenario of the specification: exporter enabled, both images overridden. -/
def clusterExporter : ValkeyCluster :=
  { Name := "cache1", Namespace := "ns"
    Spec := { Image := "custom:v2"
              Exporter := { Enabled := true, Image := "exp:v1", Resources := sampleResources } } }

/-- The second scenario with the exporter switched off (image and resources
of the exporter are still declared). -/
def clusterExporterOff : ValkeyCluster :=
  { Name := "cache1", Namespace := "ns"
    Spec := { Image := "custom:v2"
              Exporter := { Enabled := false, Image := "exp:v1", Resources := sampleResources } } }

/-- The exporter-less scenario with no exporter image and no exporter resources
declared. -/
def clusterExporterOffBare : ValkeyCluster :=
  { Name := "cache1", Namespace := "ns"
    Spec := { Image := "custom:v2" } }

/-! ## Image resolution of the primary container -/

/-- C1: the first container of the descriptor is the one named "valkey-server", and
its image is `DefaultImage` when `Spec.Image` is empty and `Spec.Image` itself
otherwise. -/
theorem primary_image_default_substitution (env : Env) (s : ValkeyCluster) :
    (createClusterDeployment env s).containers.head?.map Container.Name
        = some "valkey-server" ∧
    (createClusterDeployment env s).containers.head?.map Container.Image
        = some (if s.Spec.Image = "" then env.DefaultImage else s.Spec.Image) := by
  constructor
  · cases h : s.Spec.Exporter.Enabled <;>
      simp [createClusterDeployment, Deployment.containers, containers, h, primaryContainer]
  · cases h : s.Spec.Exporter.Enabled <;>
      by_cases hi : s.Spec.Image = "" <;>
      simp [createClusterDeployment, Deployment.containers, containers, h, primaryContainer,
        primaryImage, hi]

/-! ## Sidecar gating -/

/-- C2: with the exporter disabled the container list is the single container
"valkey-server" whose resource requirements are the empty value, and no
container is named "metrics-exporter", has a port named "metrics" or carries an
HTTP-GET probe. -/
theorem exporter_disabled_single_container (env : Env) (s : ValkeyCluster)
    (h : s.Spec.Exporter.Enabled = false) :
    (∃ c, (createClusterDeployment env s).containers = [c] ∧
        c.Name = "valkey-server" ∧ c.Resources = {}) ∧
    (∀ c ∈ (createClusterDeployment env s).containers,
        c.Name ≠ "metrics-exporter" ∧
        (∀ p ∈ c.Ports, p.Name ≠ "metrics") ∧
        (∀ pr ∈ c.probes, pr.ProbeHandler.HTTPGet = none)) := by
  have hc : (createClusterDeployment env s).containers = [primaryContainer env s] := by
    simp [createClusterDeployment, Deployment.containers, containers, h]
  rw [hc]
  refine ⟨⟨primaryContainer env s, rfl, rfl, rfl⟩, ?_⟩
  intro c hmem
  rw [List.mem_singleton] at hmem
  subst hmem
  refine ⟨?_, ?_, ?_⟩
  · show "valkey-server" ≠ "metrics-exporter"
    decide
  · intro p hp
    simp only [primaryContainer, List.mem_cons, List.mem_singleton, List.not_mem_nil,
      or_false] at hp
    rcases hp with hp | hp <;> subst hp
    · show "client" ≠ "metrics"
      decide
    · show "cluster-bus" ≠ "metrics"
      decide
  · intro pr hpr
    simp only [Container.probes, primaryContainer, Option.toList, List.cons_append,
      List.nil_append, List.mem_cons, List.mem_singleton, List.not_mem_nil, or_false] at hpr
    rcases hpr with hpr | hpr <;> subst hpr <;> rfl

/-- Evaluation of C2 on the first scenario of the specification. -/
theorem exporter_disabled_single_container_witness :
    clusterPlain.Spec.Exporter.Enabled = false ∧
    ((∃ c, (createClusterDeployment sampleEnv clusterPlain).containers = [c] ∧
        c.Name = "valkey-server" ∧ c.Resources = {}) ∧
    (∀ c ∈ (createClusterDeployment sampleEnv clusterPlain).containers,
        c.Name ≠ "metrics-exporter" ∧
        (∀ p ∈ c.Ports, p.Name ≠ "metrics") ∧
        (∀ pr ∈ c.probes, pr.ProbeHandler.HTTPGet = none))) :=
  ⟨rfl, exporter_disabled_single_container sampleEnv clusterPlain rfl⟩

/-- C3: with the exporter enabled the container list has exactly two elements,
the second is named "metrics-exporter" and exposes exactly one port, named
"metrics", numbered `DefaultExporterPort`, over TCP. -/
theorem exporter_enabled_two_containers (env : Env) (s : ValkeyCluster)
    (h : s.Spec.Exporter.Enabled = true) :
    ∃ c0 c1 p, (createClusterDeployment env s).containers = [c0, c1] ∧
      c1.Name = "metrics-exporter" ∧
      c1.Ports = [p] ∧
      p.Name = "metrics" ∧
      p.ContainerPort = env.DefaultExporterPort ∧
      p.Protocol = ProtocolTCP := by
  refine ⟨primaryContainer env s, exporterContainer env s,
    { Name := "metrics", ContainerPort := env.DefaultExporterPort, Protocol := ProtocolTCP },
    ?_, rfl, rfl, rfl, rfl, rfl⟩
  simp [createClusterDeployment, Deployment.containers, containers, h]

/-- Evaluation of C3 on the second scenario of the specification. -/
theorem exporter_enabled_two_containers_witness :
    clusterExporter.Spec.Exporter.Enabled = true ∧
    ∃ c0 c1 p, (createClusterDeployment sampleEnv clusterExporter).containers = [c0, c1] ∧
      c1.Name = "metrics-exporter" ∧
      c1.Ports = [p] ∧
      p.Name = "metrics" ∧
      p.ContainerPort = sampleEnv.DefaultExporterPort ∧
      p.Protocol = ProtocolTCP :=
  ⟨rfl, exporter_enabled_two_containers sampleEnv clusterExporter rfl⟩

/-- C4: with the exporter enabled there is exactly one container named
"metrics-exporter", and its resource requirements are `Spec.Exporter.Resources`,
whatever that value is. -/
theorem exporter_resources_verbatim (env : Env) (s : ValkeyCluster)
    (R : ResourceRequirements)
    (h : s.Spec.Exporter.Enabled = true) (hR : s.Spec.Exporter.Resources = R) :
    ((createClusterDeployment env s).containers.filter
        (fun c => c.Name == "metrics-exporter")).map Container.Resources = [R] := by
  have hc : (createClusterDeployment env s).containers
      = [primaryContainer env s, exporterContainer env s] := by
    simp [createClusterDeployment, Deployment.containers, containers, h]
  have h0 : ((primaryContainer env s).Name == "metrics-exporter") = false := by
    show ("valkey-server" == "metrics-exporter") = false
    decide
  have h1 : ((exporterContainer env s).Name == "metrics-exporter") = true := by
    show ("metrics-exporter" == "metrics-exporter") = true
    decide
  simp only [hc, List.filter, h0, h1, List.map]
  simp [exporterContainer, hR]

/-- Evaluation of C4 on the second scenario, and with the empty requirement. -/
theorem exporter_resources_verbatim_witness :
    (clusterExporter.Spec.Exporter.Enabled = true ∧
     clusterExporter.Spec.Exporter.Resources = sampleResources ∧
     ((createClusterDeployment sampleEnv clusterExporter).containers.filter
        (fun c => c.Name == "metrics-exporter")).map Container.Resources
        = [sampleResources]) ∧
    ((createClusterDeployment sampleEnv
        { clusterPlain with Spec := { Exporter := { Enabled := true } } }).containers.filter
        (fun c => c.Name == "metrics-exporter")).map Container.Resources = [{}] :=
  ⟨⟨rfl, rfl, exporter_resources_verbatim sampleEnv clusterExporter sampleResources rfl rfl⟩,
   exporter_resources_verbatim sampleEnv _ {} rfl rfl⟩

/-- C5: with the exporter enabled, the image of the "metrics-exporter" container
is `DefaultExporterImage` when `Spec.Exporter.Image` is empty and
`Spec.Exporter.Image` otherwise; replacing `Spec.Image` by any value leaves the
sidecar image unchanged, and replacing `Spec.Exporter.Image` by any value leaves
the image of "valkey-server" unchanged. -/
theorem exporter_image_resolution (env : Env) (s : ValkeyCluster)
    (h : s.Spec.Exporter.Enabled = true) :
    ((createClusterDeployment env s).containerNamed "metrics-exporter").map Container.Image
        = some (if s.Spec.Exporter.Image = "" then env.DefaultExporterImage
                else s.Spec.Exporter.Image) ∧
    (∀ img : String,
      ((createClusterDeployment env { s with Spec.Image := img }).containerNamed
          "metrics-exporter").map Container.Image
        = ((createClusterDeployment env s).containerNamed
          "metrics-exporter").map Container.Image) ∧
    (∀ img : String,
      ((createClusterDeployment env { s with Spec.Exporter.Image := img }).containerNamed
          "valkey-server").map Container.Image
        = ((createClusterDeployment env s).containerNamed
          "valkey-server").map Container.Image) := by
  have h0 : ∀ c : ValkeyCluster,
      ((primaryContainer env c).Name == "metrics-exporter") = false := by
    intro c
    show ("valkey-server" == "metrics-exporter") = false
    decide
  have h1 : ∀ c : ValkeyCluster,
      ((exporterContainer env c).Name == "metrics-exporter") = true := by
    intro c
    show ("metrics-exporter" == "metrics-exporter") = true
    decide
  have h2 : ∀ c : ValkeyCluster,
      ((primaryContainer env c).Name == "valkey-server") = true := by
    intro c
    show ("valkey-server" == "valkey-server") = true
    decide
  refine ⟨?_, ?_, ?_⟩
  · by_cases hi : s.Spec.Exporter.Image = "" <;>
      simp [createClusterDeployment, Deployment.containerNamed, Deployment.containers,
        containers, h, List.find?, h0, h1, exporterContainer, exporterImage, hi]
  · intro img
    simp [createClusterDeployment, Deployment.containerNamed, Deployment.containers,
      containers, h, List.find?, h0, h1, exporterContainer, exporterImage]
  · intro img
    simp [createClusterDeployment, Deployment.containerNamed, Deployment.containers,
      containers, h, List.find?, h2, primaryContainer, primaryImage]

/-- Evaluation of C5 on the second scenario of the specification. -/
theorem exporter_image_resolution_witness :
    clusterExporter.Spec.Exporter.Enabled = true ∧
    (((createClusterDeployment sampleEnv clusterExporter).containerNamed
          "metrics-exporter").map Container.Image
        = some (if clusterExporter.Spec.Exporter.Image = ""
                then sampleEnv.DefaultExporterImage
                else clusterExporter.Spec.Exporter.Image) ∧
    (∀ img : String,
      ((createClusterDeployment sampleEnv
          { clusterExporter with Spec.Image := img }).containerNamed
          "metrics-exporter").map Container.Image
        = ((createClusterDeployment sampleEnv clusterExporter).containerNamed
          "metrics-exporter").map Container.Image) ∧
    (∀ img : String,
      ((createClusterDeployment sampleEnv
          { clusterExporter with Spec.Exporter.Image := img }).containerNamed
          "valkey-server").map Container.Image
        = ((createClusterDeployment sampleEnv clusterExporter).containerNamed
          "valkey-server").map Container.Image)) :=
  ⟨rfl, exporter_image_resolution sampleEnv clusterExporter rfl⟩

/-! ## Metadata, labels, volumes and replicas -/

/-- C6: the object labels, the selector match-labels and the pod-template labels of
the descriptor are all the map `labels(s)`. -/
theorem label_triple_equality (env : Env) (s : ValkeyCluster) :
    (createClusterDeployment env s).Labels = env.labels s ∧
    (createClusterDeployment env s).Spec.Selector.map LabelSelector.MatchLabels
        = some (env.labels s) ∧
    (createClusterDeployment env s).Spec.Template.ObjectMeta.Labels = env.labels s := by
  simp [createClusterDeployment]

/-- C7: the pod template declares exactly the two volumes "scripts" and
"valkey-conf", in that order, both configuration-map volumes referring to the
configuration map named `s.Name`; "scripts" has default mode 0755 (493) and
"valkey-conf" has no default mode. -/
theorem volume_invariants (env : Env) (s : ValkeyCluster) :
    ∃ v0 v1 cm0 cm1, (createClusterDeployment env s).volumes = [v0, v1] ∧
      v0.Name = "scripts" ∧ v1.Name = "valkey-conf" ∧
      v0.VolumeSource = { ConfigMap := some cm0 } ∧
      v1.VolumeSource = { ConfigMap := some cm1 } ∧
      cm0.LocalObjectReference.Name = s.Name ∧
      cm1.LocalObjectReference.Name = s.Name ∧
      cm0.DefaultMode = some 493 ∧
      cm1.DefaultMode = none :=
  ⟨_, _, _, _, rfl, rfl, rfl, rfl, rfl, rfl, rfl, rfl, rfl⟩

/-- C8: the replica count of the descriptor is set and equals 1. -/
theorem replicas_is_one (env : Env) (s : ValkeyCluster) :
    (createClusterDeployment env s).Spec.Replicas = some 1 :=
  rfl

/-- C9: the generated-name prefix is `s.Name` followed by "-", the namespace is
`s.Namespace` and the fixed name is empty; for the cluster "cache1" in namespace
"default" the prefix is "cache1-". -/
theorem generate_name_and_namespace (env : Env) (s : ValkeyCluster) :
    (createClusterDeployment env s).GenerateName = s.Name ++ "-" ∧
    (createClusterDeployment env s).Namespace = s.Namespace ∧
    (createClusterDeployment env s).Name = "" ∧
    (createClusterDeployment env { Name := "cache1", Namespace := "default" }).GenerateName
        = "cache1-" ∧
    (createClusterDeployment env { Name := "cache1", Namespace := "default" }).Namespace
        = "default" :=
  ⟨rfl, rfl, rfl, (by decide : "cache1" ++ "-" = "cache1-"), rfl⟩

/-! ## Frame property of the exporter flag -/

/-- C10: if `s0` and `s1` agree on their metadata and on `Spec.Image`, the exporter
is disabled in `s0` and enabled in `s1`, then the containers of `s1` are those of
`s0` with one container, the "metrics-exporter" sidecar, appended; the primary
container is first in both, and generated-name prefix, namespace, replica count
and volumes coincide. (Two specs that differ in the flag only satisfy the
hypotheses; agreement on the exporter image and resources is not needed.) -/
theorem exporter_flag_frame (env : Env) (s0 s1 : ValkeyCluster)
    (hmeta : s1.toObjectMeta = s0.toObjectMeta)
    (himg : s1.Spec.Image = s0.Spec.Image)
    (h0 : s0.Spec.Exporter.Enabled = false)
    (h1 : s1.Spec.Exporter.Enabled = true) :
    (∃ sidecar, (createClusterDeployment env s1).containers
        = (createClusterDeployment env s0).containers ++ [sidecar] ∧
        sidecar.Name = "metrics-exporter") ∧
    (createClusterDeployment env s0).containers.length = 1 ∧
    (createClusterDeployment env s1).containers.head?
        = (createClusterDeployment env s0).containers.head? ∧
    (createClusterDeployment env s1).GenerateName
        = (createClusterDeployment env s0).GenerateName ∧
    (createClusterDeployment env s1).Namespace
        = (createClusterDeployment env s0).Namespace ∧
    (createClusterDeployment env s1).Spec.Replicas
        = (createClusterDeployment env s0).Spec.Replicas ∧
    (createClusterDeployment env s1).volumes
        = (createClusterDeployment env s0).volumes := by
  have hp : primaryContainer env s1 = primaryContainer env s0 := by
    simp [primaryContainer, primaryImage, himg]
  have hname : s1.Name = s0.Name := congrArg ObjectMeta.Name hmeta
  have hns : s1.Namespace = s0.Namespace := congrArg ObjectMeta.Namespace hmeta
  have hc0 : (createClusterDeployment env s0).containers = [primaryContainer env s0] := by
    simp [createClusterDeployment, Deployment.containers, containers, h0]
  have hc1 : (createClusterDeployment env s1).containers
      = [primaryContainer env s0, exporterContainer env s1] := by
    simp [createClusterDeployment, Deployment.containers, containers, h1, hp]
  refine ⟨⟨exporterContainer env s1, ?_, rfl⟩, ?_, ?_, ?_, ?_, rfl, ?_⟩
  · rw [hc0, hc1]
    rfl
  · rw [hc0]
    rfl
  · rw [hc0, hc1]
    rfl
  · simp [createClusterDeployment, hname]
  · simp [createClusterDeployment, hns]
  · simp [createClusterDeployment, Deployment.volumes, volumes, hname]

/-- Evaluation of C10 on the second scenario and its exporter-less twin. -/
theorem exporter_flag_frame_witness :
    clusterExporter.toObjectMeta = clusterExporterOff.toObjectMeta ∧
    clusterExporter.Spec.Image = clusterExporterOff.Spec.Image ∧
    clusterExporterOff.Spec.Exporter.Enabled = false ∧
    clusterExporter.Spec.Exporter.Enabled = true ∧
    (∃ sidecar, (createClusterDeployment sampleEnv clusterExporter).containers
        = (createClusterDeployment sampleEnv clusterExporterOff).containers ++ [sidecar] ∧
        sidecar.Name = "metrics-exporter") ∧
    (createClusterDeployment sampleEnv clusterExporterOff).containers.length = 1 ∧
    (createClusterDeployment sampleEnv clusterExporter).containers.head?
        = (createClusterDeployment sampleEnv clusterExporterOff).containers.head? ∧
    (createClusterDeployment sampleEnv clusterExporter).GenerateName
        = (createClusterDeployment sampleEnv clusterExporterOff).GenerateName ∧
    (createClusterDeployment sampleEnv clusterExporter).Namespace
        = (createClusterDeployment sampleEnv clusterExporterOff).Namespace ∧
    (createClusterDeployment sampleEnv clusterExporter).Spec.Replicas
        = (createClusterDeployment sampleEnv clusterExporterOff).Spec.Replicas ∧
    (createClusterDeployment sampleEnv clusterExporter).volumes
        = (createClusterDeployment sampleEnv clusterExporterOff).volumes :=
  ⟨rfl, rfl, rfl, rfl,
    exporter_flag_frame sampleEnv clusterExporterOff clusterExporter rfl rfl rfl rfl⟩

/-! ## Shape of the container list -/

/-- With the exporter disabled the container list is the primary container alone. -/
theorem containers_of_disabled (env : Env) (s : ValkeyCluster)
    (h : s.Spec.Exporter.Enabled = false) :
    (createClusterDeployment env s).containers = [primaryContainer env s] := by
  simp [createClusterDeployment, Deployment.containers, containers, h]

/-- With the exporter enabled the container list is the primary container followed
by the exporter container. -/
theorem containers_of_enabled (env : Env) (s : ValkeyCluster)
    (h : s.Spec.Exporter.Enabled = true) :
    (createClusterDeployment env s).containers
      = [primaryContainer env s, exporterContainer env s] := by
  simp [createClusterDeployment, Deployment.containers, containers, h]

/-! ## Wiring of the exporter container -/

/-- C11: with the exporter enabled, the "metrics-exporter" container has no command
and the single argument "--redis.addr=localhost:" followed by the decimal
rendering of `DefaultPort`, and `DefaultPort` is the number of the one port named
"client" of the primary container. -/
theorem exporter_args_wiring (env : Env) (s : ValkeyCluster)
    (h : s.Spec.Exporter.Enabled = true) :
    ∃ c0 c1, (createClusterDeployment env s).containers = [c0, c1] ∧
      c0.Name = "valkey-server" ∧
      c1.Name = "metrics-exporter" ∧
      c1.Command = [] ∧
      c1.Args = ["--redis.addr=localhost:" ++ toString env.DefaultPort] ∧
      (c0.Ports.filter (fun p => p.Name == "client")).map ContainerPort.ContainerPort
        = [env.DefaultPort] := by
  refine ⟨primaryContainer env s, exporterContainer env s,
    containers_of_enabled env s h, rfl, rfl, rfl, rfl, ?_⟩
  have hc : (("client" : String) == "client") = true := by decide
  have hb : (("cluster-bus" : String) == "client") = false := by decide
  simp only [primaryContainer, List.filter, hc, hb, List.map]

/-- Evaluation of C11 on the second scenario: the argument is
"--redis.addr=localhost:6379". -/
theorem exporter_args_wiring_witness :
    clusterExporter.Spec.Exporter.Enabled = true ∧
    ("--redis.addr=localhost:" ++ toString sampleEnv.DefaultPort
        = "--redis.addr=localhost:6379") ∧
    ∃ c0 c1, (createClusterDeployment sampleEnv clusterExporter).containers = [c0, c1] ∧
      c0.Name = "valkey-server" ∧
      c1.Name = "metrics-exporter" ∧
      c1.Command = [] ∧
      c1.Args = ["--redis.addr=localhost:" ++ toString sampleEnv.DefaultPort] ∧
      (c0.Ports.filter (fun p => p.Name == "client")).map ContainerPort.ContainerPort
        = [sampleEnv.DefaultPort] :=
  ⟨rfl, by decide, exporter_args_wiring sampleEnv clusterExporter rfl⟩

/-- C12: with the exporter enabled, the liveness probe of "metrics-exporter" is an
HTTP-GET probe (no exec handler) on "/health", its readiness probe is an HTTP-GET
probe (no exec handler) on "/ready", both target the integer port
`DefaultExporterPort`, which is the number of the container's "metrics" port. -/
theorem exporter_probes_http (env : Env) (s : ValkeyCluster)
    (h : s.Spec.Exporter.Enabled = true) :
    ∃ c0 c1 live ready gl gr p,
      (createClusterDeployment env s).containers = [c0, c1] ∧
      c1.Name = "metrics-exporter" ∧
      c1.LivenessProbe = some live ∧
      live.ProbeHandler.Exec = none ∧
      live.ProbeHandler.HTTPGet = some gl ∧
      gl.Path = "/health" ∧
      gl.Port = IntOrString.int env.DefaultExporterPort ∧
      c1.ReadinessProbe = some ready ∧
      ready.ProbeHandler.Exec = none ∧
      ready.ProbeHandler.HTTPGet = some gr ∧
      gr.Path = "/ready" ∧
      gr.Port = IntOrString.int env.DefaultExporterPort ∧
      c1.Ports = [p] ∧
      p.Name = "metrics" ∧
      p.ContainerPort = env.DefaultExporterPort :=
  ⟨primaryContainer env s, exporterContainer env s, _, _, _, _, _,
    containers_of_enabled env s h, rfl, rfl, rfl, rfl, rfl, rfl, rfl, rfl, rfl, rfl, rfl,
    rfl, rfl, rfl⟩

/-- Evaluation of C12 on the second scenario of the specification. -/
theorem exporter_probes_http_witness :
    clusterExporter.Spec.Exporter.Enabled = true ∧
    ∃ c0 c1 live ready gl gr p,
      (createClusterDeployment sampleEnv clusterExporter).containers = [c0, c1] ∧
      c1.Name = "metrics-exporter" ∧
      c1.LivenessProbe = some live ∧
      live.ProbeHandler.Exec = none ∧
      live.ProbeHandler.HTTPGet = some gl ∧
      gl.Path = "/health" ∧
      gl.Port = IntOrString.int sampleEnv.DefaultExporterPort ∧
      c1.ReadinessProbe = some ready ∧
      ready.ProbeHandler.Exec = none ∧
      ready.ProbeHandler.HTTPGet = some gr ∧
      gr.Path = "/ready" ∧
      gr.Port = IntOrString.int sampleEnv.DefaultExporterPort ∧
      c1.Ports = [p] ∧
      p.Name = "metrics" ∧
      p.ContainerPort = sampleEnv.DefaultExporterPort :=
  ⟨rfl, exporter_probes_http sampleEnv clusterExporter rfl⟩

/-! ## Probe timings -/

/-- C13, as stated, fails on the second scenario: it is not the case that both
probes of "metrics-exporter" have a strictly smaller initial delay and a strictly
smaller timeout than the corresponding probes of the primary container. -/
theorem exporter_probes_not_all_shorter :
    ¬ ∃ c0 c1 pl pr el er,
      (createClusterDeployment sampleEnv clusterExporter).containers = [c0, c1] ∧
      c0.LivenessProbe = some pl ∧ c0.ReadinessProbe = some pr ∧
      c1.LivenessProbe = some el ∧ c1.ReadinessProbe = some er ∧
      el.InitialDelaySeconds < pl.InitialDelaySeconds ∧
      el.TimeoutSeconds < pl.TimeoutSeconds ∧
      er.InitialDelaySeconds < pr.InitialDelaySeconds ∧
      er.TimeoutSeconds < pr.TimeoutSeconds := by
  rintro ⟨c0, c1, pl, pr, el, er, hc, hpl, -, hel, -, hlt, -⟩
  rw [containers_of_enabled sampleEnv clusterExporter rfl] at hc
  simp only [List.cons.injEq, and_true] at hc
  obtain ⟨hc0, hc1⟩ := hc
  subst hc0
  subst hc1
  have hpl5 : pl.InitialDelaySeconds = 5 := by
    simp only [primaryContainer, Option.some.injEq] at hpl
    rw [← hpl]
  have hel10 : el.InitialDelaySeconds = 10 := by
    simp only [exporterContainer, Option.some.injEq] at hel
    rw [← hel]
  omega

/-- C13, amended: with the exporter enabled, the liveness probe of
"metrics-exporter" has a strictly smaller timeout than the primary liveness probe
(3 against 5) but a larger initial delay (10 against 5); its readiness probe has
the same initial delay as the primary readiness probe (5) and a larger timeout
(3 against 2). -/
theorem exporter_probe_timings (env : Env) (s : ValkeyCluster)
    (h : s.Spec.Exporter.Enabled = true) :
    ∃ c0 c1 pl pr el er,
      (createClusterDeployment env s).containers = [c0, c1] ∧
      c0.Name = "valkey-server" ∧ c1.Name = "metrics-exporter" ∧
      c0.LivenessProbe = some pl ∧ c0.ReadinessProbe = some pr ∧
      c1.LivenessProbe = some el ∧ c1.ReadinessProbe = some er ∧
      el.TimeoutSeconds < pl.TimeoutSeconds ∧
      el.TimeoutSeconds = 3 ∧ pl.TimeoutSeconds = 5 ∧
      pl.InitialDelaySeconds < el.InitialDelaySeconds ∧
      el.InitialDelaySeconds = 10 ∧ pl.InitialDelaySeconds = 5 ∧
      er.InitialDelaySeconds = pr.InitialDelaySeconds ∧
      er.InitialDelaySeconds = 5 ∧
      pr.TimeoutSeconds < er.TimeoutSeconds ∧
      er.TimeoutSeconds = 3 ∧ pr.TimeoutSeconds = 2 :=
  ⟨primaryContainer env s, exporterContainer env s, _, _, _, _,
    containers_of_enabled env s h, rfl, rfl, rfl, rfl, rfl, rfl,
    (by decide : (3 : Int) < 5), rfl, rfl, (by decide : (5 : Int) < 10), rfl, rfl, rfl, rfl,
    (by decide : (2 : Int) < 3), rfl, rfl⟩

/-- Evaluation of the amended C13 on the second scenario of the specification. -/
theorem exporter_probe_timings_witness :
    clusterExporter.Spec.Exporter.Enabled = true ∧
    ∃ c0 c1 pl pr el er,
      (createClusterDeployment sampleEnv clusterExporter).containers = [c0, c1] ∧
      c0.Name = "valkey-server" ∧ c1.Name = "metrics-exporter" ∧
      c0.LivenessProbe = some pl ∧ c0.ReadinessProbe = some pr ∧
      c1.LivenessProbe = some el ∧ c1.ReadinessProbe = some er ∧
      el.TimeoutSeconds < pl.TimeoutSeconds ∧
      el.TimeoutSeconds = 3 ∧ pl.TimeoutSeconds = 5 ∧
      pl.InitialDelaySeconds < el.InitialDelaySeconds ∧
      el.InitialDelaySeconds = 10 ∧ pl.InitialDelaySeconds = 5 ∧
      er.InitialDelaySeconds = pr.InitialDelaySeconds ∧
      er.InitialDelaySeconds = 5 ∧
      pr.TimeoutSeconds < er.TimeoutSeconds ∧
      er.TimeoutSeconds = 3 ∧ pr.TimeoutSeconds = 2 :=
  ⟨rfl, exporter_probe_timings sampleEnv clusterExporter rfl⟩

/-- C14: the liveness and readiness probes of the primary container are both
exec-command probes (no HTTP-GET handler), their command lists differ (they end
in "/scripts/liveness-check.sh" and "/scripts/readiness-check.sh"), and the
liveness timeout is strictly longer than the readiness timeout. -/
theorem primary_probes_exec (env : Env) (s : ValkeyCluster) :
    ∃ c live ready el er,
      (createClusterDeployment env s).containers.head? = some c ∧
      c.Name = "valkey-server" ∧
      c.LivenessProbe = some live ∧ c.ReadinessProbe = some ready ∧
      live.ProbeHandler.HTTPGet = none ∧ ready.ProbeHandler.HTTPGet = none ∧
      live.ProbeHandler.Exec = some el ∧ ready.ProbeHandler.Exec = some er ∧
      el.Command ≠ er.Command ∧
      el.Command.getLast? = some "/scripts/liveness-check.sh" ∧
      er.Command.getLast? = some "/scripts/readiness-check.sh" ∧
      ready.TimeoutSeconds < live.TimeoutSeconds := by
  refine ⟨primaryContainer env s, _, _, _, _, ?_, rfl, rfl, rfl, rfl, rfl, rfl, rfl,
    by decide, rfl, rfl, by decide⟩
  cases h : s.Spec.Exporter.Enabled
  · rw [containers_of_disabled env s h]
    rfl
  · rw [containers_of_enabled env s h]
    rfl

/-- C15, as stated, fails on the first scenario: the primary probes do not have
distinct failure thresholds with a strictly longer liveness failure window. -/
theorem primary_failure_window_not_longer :
    ¬ ∃ c live ready,
      (createClusterDeployment sampleEnv clusterPlain).containers.head? = some c ∧
      c.LivenessProbe = some live ∧ c.ReadinessProbe = some ready ∧
      live.FailureThreshold ≠ ready.FailureThreshold ∧
      ready.FailureThreshold * ready.PeriodSeconds
        < live.FailureThreshold * live.PeriodSeconds := by
  rintro ⟨c, live, ready, hc, hl, hr, hne, -⟩
  rw [containers_of_disabled sampleEnv clusterPlain rfl] at hc
  simp only [List.head?_cons, Option.some.injEq] at hc
  subst hc
  simp only [primaryContainer, Option.some.injEq] at hl hr
  apply hne
  rw [← hl, ← hr]

/-- C15, amended: the liveness and readiness probes of the primary container have
the same failure threshold (5) and the same period (5), hence the same failure
window (threshold times period, 25). -/
theorem primary_failure_window_equal (env : Env) (s : ValkeyCluster) :
    ∃ c live ready,
      (createClusterDeployment env s).containers.head? = some c ∧
      c.Name = "valkey-server" ∧
      c.LivenessProbe = some live ∧ c.ReadinessProbe = some ready ∧
      live.FailureThreshold = ready.FailureThreshold ∧
      live.FailureThreshold = 5 ∧
      live.PeriodSeconds = ready.PeriodSeconds ∧
      live.PeriodSeconds = 5 ∧
      live.FailureThreshold * live.PeriodSeconds
        = ready.FailureThreshold * ready.PeriodSeconds ∧
      live.FailureThreshold * live.PeriodSeconds = 25 := by
  refine ⟨primaryContainer env s, _, _, ?_, rfl, rfl, rfl, rfl, rfl, rfl, rfl, rfl,
    by decide⟩
  cases h : s.Spec.Exporter.Enabled
  · rw [containers_of_disabled env s h]
    rfl
  · rw [containers_of_enabled env s h]
    rfl

/-- The first container of the descriptor is the primary container, whatever the
exporter flag. -/
theorem head_is_primary (env : Env) (s : ValkeyCluster) :
    (createClusterDeployment env s).containers.head? = some (primaryContainer env s) := by
  cases h : s.Spec.Exporter.Enabled
  · rw [containers_of_disabled env s h]
    rfl
  · rw [containers_of_enabled env s h]
    rfl

/-! ## Volume mounts and executed paths -/

/-- C16: the primary container has exactly two volume mounts: "scripts" at
"/scripts", read-write, and "valkey-conf" at "/config", read-only. -/
theorem primary_volume_mounts (env : Env) (s : ValkeyCluster) :
    ∃ c m0 m1,
      (createClusterDeployment env s).containers.head? = some c ∧
      c.Name = "valkey-server" ∧
      c.VolumeMounts = [m0, m1] ∧
      m0.Name = "scripts" ∧ m0.MountPath = "/scripts" ∧ m0.ReadOnly = false ∧
      m1.Name = "valkey-conf" ∧ m1.MountPath = "/config" ∧ m1.ReadOnly = true :=
  ⟨primaryContainer env s, _, _, head_is_primary env s, rfl, rfl, rfl, rfl, rfl, rfl, rfl,
    rfl⟩

/-- C17: two specs with the exporter disabled that agree on their metadata and on
`Spec.Image` (so differ at most in `Exporter.Image` and `Exporter.Resources`) yield
descriptors with the same generated-name prefix, namespace, replica count,
volumes and container list. -/
theorem disabled_exporter_fields_ignored (env : Env) (s1 s2 : ValkeyCluster)
    (hmeta : s1.toObjectMeta = s2.toObjectMeta)
    (himg : s1.Spec.Image = s2.Spec.Image)
    (h1 : s1.Spec.Exporter.Enabled = false)
    (h2 : s2.Spec.Exporter.Enabled = false) :
    (createClusterDeployment env s1).GenerateName
        = (createClusterDeployment env s2).GenerateName ∧
    (createClusterDeployment env s1).Namespace
        = (createClusterDeployment env s2).Namespace ∧
    (createClusterDeployment env s1).Spec.Replicas
        = (createClusterDeployment env s2).Spec.Replicas ∧
    (createClusterDeployment env s1).volumes
        = (createClusterDeployment env s2).volumes ∧
    (createClusterDeployment env s1).containers
        = (createClusterDeployment env s2).containers := by
  have hname : s1.Name = s2.Name := congrArg ObjectMeta.Name hmeta
  have hns : s1.Namespace = s2.Namespace := congrArg ObjectMeta.Namespace hmeta
  refine ⟨?_, ?_, rfl, ?_, ?_⟩
  · simp [createClusterDeployment, hname]
  · simp [createClusterDeployment, hns]
  · simp [createClusterDeployment, Deployment.volumes, volumes, hname]
  · rw [containers_of_disabled env s1 h1, containers_of_disabled env s2 h2]
    simp [primaryContainer, primaryImage, himg]

/-- Evaluation of C17 on two exporter-less specs, one declaring an exporter image
and resources, the other declaring neither. -/
theorem disabled_exporter_fields_ignored_witness :
    clusterExporterOff.Spec.Exporter ≠ clusterExporterOffBare.Spec.Exporter ∧
    clusterExporterOff.toObjectMeta = clusterExporterOffBare.toObjectMeta ∧
    clusterExporterOff.Spec.Image = clusterExporterOffBare.Spec.Image ∧
    clusterExporterOff.Spec.Exporter.Enabled = false ∧
    clusterExporterOffBare.Spec.Exporter.Enabled = false ∧
    ((createClusterDeployment sampleEnv clusterExporterOff).GenerateName
        = (createClusterDeployment sampleEnv clusterExporterOffBare).GenerateName ∧
    (createClusterDeployment sampleEnv clusterExporterOff).Namespace
        = (createClusterDeployment sampleEnv clusterExporterOffBare).Namespace ∧
    (createClusterDeployment sampleEnv clusterExporterOff).Spec.Replicas
        = (createClusterDeployment sampleEnv clusterExporterOffBare).Spec.Replicas ∧
    (createClusterDeployment sampleEnv clusterExporterOff).volumes
        = (createClusterDeployment sampleEnv clusterExporterOffBare).volumes ∧
    (createClusterDeployment sampleEnv clusterExporterOff).containers
        = (createClusterDeployment sampleEnv clusterExporterOffBare).containers) :=
  ⟨by decide, rfl, rfl, rfl, rfl,
    disabled_exporter_fields_ignored sampleEnv clusterExporterOff clusterExporterOffBare
      rfl rfl rfl rfl⟩

/-- C18: the paths executed by the primary container lie inside its mounts: the
second element of the startup command ["valkey-server", "/config/valkey.conf"] is
the mount path of the "valkey-conf" mount followed by "/" and a file name, and the
last element of the command of each exec probe is the mount path of the "scripts"
mount followed by "/" and a file name. -/
theorem executed_paths_inside_mounts (env : Env) (s : ValkeyCluster) :
    ∃ c mS mC live ready el er,
      (createClusterDeployment env s).containers.head? = some c ∧
      c.VolumeMounts.find? (fun m => m.Name == "scripts") = some mS ∧
      c.VolumeMounts.find? (fun m => m.Name == "valkey-conf") = some mC ∧
      c.Command = ["valkey-server", "/config/valkey.conf"] ∧
      (∃ file, c.Command = ["valkey-server", mC.MountPath ++ "/" ++ file]) ∧
      c.LivenessProbe = some live ∧ live.ProbeHandler.Exec = some el ∧
      (∃ file, el.Command.getLast? = some (mS.MountPath ++ "/" ++ file)) ∧
      c.ReadinessProbe = some ready ∧ ready.ProbeHandler.Exec = some er ∧
      (∃ file, er.Command.getLast? = some (mS.MountPath ++ "/" ++ file)) := by
  refine ⟨primaryContainer env s, { Name := "scripts", MountPath := "/scripts" },
    { Name := "valkey-conf", MountPath := "/config", ReadOnly := true }, _, _, _, _,
    head_is_primary env s, ?_, ?_, rfl, ⟨"valkey.conf", ?_⟩, rfl, rfl,
    ⟨"liveness-check.sh", ?_⟩, rfl, rfl, ⟨"readiness-check.sh", ?_⟩⟩
  · have hs : (("scripts" : String) == "scripts") = true := by decide
    simp only [primaryContainer, List.find?, hs]
  · have hs : (("scripts" : String) == "valkey-conf") = false := by decide
    have hv : (("valkey-conf" : String) == "valkey-conf") = true := by decide
    simp only [primaryContainer, List.find?, hs, hv]
  · show ["valkey-server", "/config/valkey.conf"]
      = ["valkey-server", "/config" ++ "/" ++ "valkey.conf"]
    decide
  · show ["/bin/bash", "-c", "/scripts/liveness-check.sh"].getLast?
      = some ("/scripts" ++ "/" ++ "liveness-check.sh")
    decide
  · show ["/bin/bash", "-c", "/scripts/readiness-check.sh"].getLast?
      = some ("/scripts" ++ "/" ++ "readiness-check.sh")
    decide

/-! ## Referential integrity of volumes -/

/-- C19: in every descriptor, each volume mount of each container names a declared
volume, each declared volume is mounted by some container, the declared volume
names are pairwise distinct and the container names are pairwise distinct. -/
theorem volume_referential_integrity (env : Env) (s : ValkeyCluster) :
    (∀ c ∈ (createClusterDeployment env s).containers, ∀ m ∈ c.VolumeMounts,
        ∃ v ∈ (createClusterDeployment env s).volumes, v.Name = m.Name) ∧
    (∀ v ∈ (createClusterDeployment env s).volumes,
        ∃ c ∈ (createClusterDeployment env s).containers,
          ∃ m ∈ c.VolumeMounts, m.Name = v.Name) ∧
    ((createClusterDeployment env s).volumes.map Volume.Name).Nodup ∧
    ((createClusterDeployment env s).containers.map Container.Name).Nodup := by
  have hv : (createClusterDeployment env s).volumes = volumes s := rfl
  have hvn : (volumes s).map Volume.Name = ["scripts", "valkey-conf"] := rfl
  have hpm : (primaryContainer env s).VolumeMounts.map VolumeMount.Name
      = ["scripts", "valkey-conf"] := rfl
  have hem : (exporterContainer env s).VolumeMounts = [] := rfl
  have key : ∀ cs : List Container,
      (createClusterDeployment env s).containers = primaryContainer env s :: cs →
      (∀ c ∈ cs, c.VolumeMounts = []) →
      (∀ c ∈ (createClusterDeployment env s).containers, ∀ m ∈ c.VolumeMounts,
          ∃ v ∈ (createClusterDeployment env s).volumes, v.Name = m.Name) ∧
      (∀ v ∈ (createClusterDeployment env s).volumes,
          ∃ c ∈ (createClusterDeployment env s).containers,
            ∃ m ∈ c.VolumeMounts, m.Name = v.Name) := by
    intro cs hcs hnil
    rw [hcs, hv]
    constructor
    · intro c hc m hm
      rcases List.mem_cons.mp hc with rfl | hc
      · have hmem : m.Name ∈ (volumes s).map Volume.Name := by
          rw [hvn, ← hpm]
          exact List.mem_map_of_mem _ hm
        obtain ⟨v, hvmem, hveq⟩ := List.mem_map.mp hmem
        exact ⟨v, hvmem, hveq⟩
      · rw [hnil c hc] at hm
        cases hm
    · intro v hvmem
      have hmem : v.Name ∈ (primaryContainer env s).VolumeMounts.map VolumeMount.Name := by
        rw [hpm, ← hvn]
        exact List.mem_map_of_mem _ hvmem
      obtain ⟨m, hm, hmeq⟩ := List.mem_map.mp hmem
      exact ⟨primaryContainer env s, List.mem_cons_self _ _, m, hm, hmeq⟩
  have hnd : ((createClusterDeployment env s).volumes.map Volume.Name).Nodup := by
    rw [hv, hvn]
    decide
  cases h : s.Spec.Exporter.Enabled
  · obtain ⟨k1, k2⟩ := key [] (containers_of_disabled env s h)
      (fun c hc => by cases hc)
    refine ⟨k1, k2, hnd, ?_⟩
    rw [containers_of_disabled env s h]
    show ["valkey-server"].Nodup
    decide
  · obtain ⟨k1, k2⟩ := key [exporterContainer env s] (containers_of_enabled env s h)
      (fun c hc => by
        rw [List.mem_singleton] at hc
        rw [hc, hem])
    refine ⟨k1, k2, hnd, ?_⟩
    rw [containers_of_enabled env s h]
    show ["valkey-server", "metrics-exporter"].Nodup
    decide

end ValkeyOperator
